import Mathlib

/-!
Shallow embedding of the request-signing and transport-contract layer of the
`thenextquant` exchange adapters (`quant/platform/binance.py`,
`quant/platform/huobi.py`, `quant/platform/okex.py`), together with theorems
settling the specification claims about it.

Python dicts are modelled as ordered association lists with unique keys
(`Params`), mirroring CPython 3.7+ insertion-order semantics; `setItem` is
dict assignment (replace in place if present, append otherwise) and
`dictUpdate` is `dict.update`.  Machine-level hashing (HMAC-SHA256) is kept
abstract: the adapters are parameterised over the keyed-digest function, and
the digest *rendering* (hex vs base64) is modelled executably.
-/

namespace Spec2Proof

/-- Subset of Python values appearing in request parameter dicts: strings,
integers, and `None`. -/
inductive PVal
  | str (s : String)
  | int (n : Int)
  | pyNone
  deriving DecidableEq, Repr

/-- A Python dict of string keys and string values, as an insertion-ordered
association list with unique keys. -/
abbrev Params := List (String × String)

/-- Python dict assignment `d[k] = v`: replace the value in place if the key
exists, append at the end otherwise. -/
def setItem : Params → String → String → Params
  | [], k, v => [(k, v)]
  | p :: rest, k, v => if p.1 = k then (k, v) :: rest else p :: setItem rest k v

/-- Python `d.update(new)`: assign each pair of `new` into `d` in order. -/
def dictUpdate (d new : Params) : Params :=
  new.foldl (fun acc p => setItem acc p.1 p.2) d

/-- Python `d.get(k)` / `d[k]` on a string-valued dict. -/
def dictGet : Params → String → Option String
  | [], _ => none
  | p :: rest, k => if p.1 = k then some p.2 else dictGet rest k

/-- Lookup in a `PVal`-valued dict. -/
def lookupP : List (String × PVal) → String → Option PVal
  | [], _ => none
  | p :: rest, k => if p.1 = k then some p.2 else lookupP rest k

/-- Python `d.pop(k)` (ignoring the returned value): remove the key. -/
def popKey : List (String × PVal) → String → List (String × PVal)
  | [], _ => []
  | p :: rest, k => if p.1 = k then rest else p :: popKey rest k

/-- Python `"&".join(f"{k}={v}" for k, v in d.items())`. -/
def joinQuery : Params → String
  | [] => ""
  | [p] => p.1 ++ "=" ++ p.2
  | p :: q :: rest => p.1 ++ "=" ++ p.2 ++ "&" ++ joinQuery (q :: rest)

/-- Truthiness of a Python `Optional[int]`: `None` and `0` are falsy. -/
def pyTruthyOptInt : Option Int → Bool
  | none => false
  | some n => n != 0

/-- Truthiness of a Python `Optional[str]`: `None` and `""` are falsy. -/
def pyTruthyOptStr : Option String → Bool
  | none => false
  | some s => s != ""

/-- Python `"{}".format(v)` for an `Optional[int]`: `None` prints as the four
characters `None`. -/
def pyFormatOptInt : Option Int → String
  | none => "None"
  | some n => toString n

/-- Uppercase hexadecimal digit, as used by `urllib.parse.quote`. -/
def hexDigitUpper (n : Nat) : Char :=
  if n < 10 then Char.ofNat (48 + n) else Char.ofNat (55 + n)

/-- Lowercase hexadecimal digit, as used by the Python method `hexdigest()`. -/
def hexDigitLower (n : Nat) : Char :=
  if n < 10 then Char.ofNat (48 + n) else Char.ofNat (87 + n)

/-- UTF-8 encoding of one character, as a list of byte values. -/
def utf8Bytes (c : Char) : List Nat :=
  let n := c.toNat
  if n < 0x80 then [n]
  else if n < 0x800 then [0xC0 + n / 0x40, 0x80 + n % 0x40]
  else if n < 0x10000 then
    [0xE0 + n / 0x1000, 0x80 + n / 0x40 % 0x40, 0x80 + n % 0x40]
  else
    [0xF0 + n / 0x40000, 0x80 + n / 0x1000 % 0x40, 0x80 + n / 0x40 % 0x40, 0x80 + n % 0x40]

/-- One character of `urllib.parse.quote` with the default `safe="/"`:
unreserved characters and `/` pass through, everything else becomes
`%XX` escapes of its UTF-8 bytes (uppercase hex). -/
def quoteChar (c : Char) : String :=
  if c.isAlphanum || c = '_' || c = '.' || c = '-' || c = '~' || c = '/' then
    String.singleton c
  else
    String.join ((utf8Bytes c).map fun b =>
      "%" ++ String.singleton (hexDigitUpper (b / 16)) ++ String.singleton (hexDigitUpper (b % 16)))

/-- Python `urllib.parse.quote(s)` with the default `safe="/"`. -/
def pyQuote (s : String) : String := String.join (s.toList.map quoteChar)

/-- Insert a pair into a list sorted by key (ascending code-point order,
matching Python string comparison). -/
def insertSorted (p : String × String) : Params → Params
  | [] => [p]
  | q :: rest => if p.1 ≤ q.1 then p :: q :: rest else q :: insertSorted p rest

/-- Python `sorted(d.keys())` followed by lookup: the dict re-ordered by
ascending key.  Keys of a dict are unique, so this is exactly
`[(k, d[k]) for k in sorted(d.keys())]`. -/
def sortByKey : Params → Params
  | [] => []
  | p :: rest => insertSorted p (sortByKey rest)

/-! ## Venue A: `BinanceRestAPI` (`quant/platform/binance.py`) -/

/-- Credentials held by a `BinanceRestAPI` instance. -/
structure BinanceCred where
  host : String
  access_key : String
  secret_key : String

/-- The merged dict `data` of `BinanceRestAPI.request`: an empty dict updated
with the query params, then with the body. -/
def binanceMerged (params body : Params) : Params :=
  dictUpdate (dictUpdate [] params) body

/-- The query string built by `BinanceRestAPI.request`: the `key=value&...`
join of the merged dict in insertion order, with an HMAC-SHA256 hex signature
of that join appended as a trailing `signature` parameter when `auth` is set
and the merged dict is non-empty.  `hm` is the keyed digest
`hmac.new(secret, query, sha256).hexdigest()`. -/
def binanceQuery (hm : String → String → String) (secret : String)
    (params body : Params) (auth : Bool) : String :=
  let data := binanceMerged params body
  let query := if data = [] then "" else joinQuery data
  if auth = true ∧ query ≠ "" then query ++ "&signature=" ++ hm secret query
  else query

/-- The full URL built by `BinanceRestAPI.request`.  `urljoin(host, uri)` is
modelled as `host ++ uri`, its value for an absolute-path `uri` against a
bare scheme-and-host base. -/
def binanceRequestUrl (hm : String → String → String) (cred : BinanceCred)
    (uri : String) (params body : Params) (auth : Bool) : String :=
  let query := binanceQuery hm cred.secret_key params body auth
  if query ≠ "" then cred.host ++ uri ++ "?" ++ query
  else cred.host ++ uri

/-- Params of `BinanceRestAPI.get_orderbook(symbol, limit)`, sent with
`auth=False`; the code performs no bound check on `limit`. -/
def binanceGetOrderbookParams (symbol : String) (limit : Int) : List (String × PVal) :=
  [("symbol", PVal.str symbol), ("limit", PVal.int limit)]

/-! ## Venue B: `HuobiRestAPI` (`quant/platform/huobi.py`) -/

/-- Credentials held by a `HuobiRestAPI` instance. -/
structure HuobiCred where
  host : String
  access_key : String
  secret_key : String

/-- Hostname of the configured host URL.  Models
`urllib.parse.urlparse(host).hostname` (which lower-cases) for a
`scheme://host[/...]` string; the adapter applies `.lower()` on top, so the
composition below matches the net effect of the code. -/
def hostnameOf (host : String) : String :=
  let rest :=
    if host.startsWith "https://" then host.drop 8
    else if host.startsWith "http://" then host.drop 7
    else host
  rest.takeWhile fun c => c != '/' && c != ':'

/-- The canonical query of `HuobiRestAPI.generate_signature`:
`"&".join("{}={}".format(k, quote(str(params[k]))) for k in sorted(params.keys()))`
— keys sorted ascending, each value percent-encoded, joined with `&`. -/
def huobiCanonicalQuery (ps : Params) : String :=
  joinQuery ((sortByKey ps).map fun p => (p.1, pyQuote p.2))

/-- `HuobiRestAPI.generate_signature`: the base64 HMAC-SHA256 (`hm`) of the
newline-joined tuple (method, host name, request path, canonical query),
keyed by the secret key. -/
def generate_signature (hm : String → String → String) (secret : String)
    (method host_url request_path : String) (ps : Params) : String :=
  let query := huobiCanonicalQuery ps
  let payload := String.intercalate "\n" [method, host_url, request_path, query]
  hm secret payload

/-- The four authentication parameters `HuobiRestAPI.request` merges into the
params of the caller before signing. -/
def huobiAuthParams (access_key timestamp : String) : Params :=
  [("AccessKeyId", access_key), ("SignatureMethod", "HmacSHA256"),
   ("SignatureVersion", "2"), ("Timestamp", timestamp)]

/-- The parameter dict `HuobiRestAPI.request` hands to the transport: the
params of the caller updated with the auth params, then with a `Signature`
computed by `generate_signature` over that updated dict. -/
def huobiRequestParams (hm : String → String → String) (cred : HuobiCred)
    (method uri timestamp : String) (params0 : Params) : Params :=
  let ps := dictUpdate params0 (huobiAuthParams cred.access_key timestamp)
  let host_name := (hostnameOf cred.host).toLower
  setItem ps "Signature" (generate_signature hm cred.secret_key method host_name uri ps)

/-- The params dict of the caller after `HuobiRestAPI.request` returns:
`params = params if params else {}` keeps the own (mutable) dict of the caller
whenever it is non-empty, so the in-place `update` and `Signature` insertion
are visible to the caller; an empty/`None` argument is replaced by a fresh
dict and the value held by the caller is untouched. -/
def huobiCallerParamsAfter (hm : String → String → String) (cred : HuobiCred)
    (method uri timestamp : String) (params0 : Params) : Params :=
  if params0 = [] then params0
  else huobiRequestParams hm cred method uri timestamp params0

/-- One account entry returned by the Huobi account-listing endpoint. -/
structure HuobiAccount where
  typ : String
  id : Int
  deriving DecidableEq, Repr

/-- The scan of `HuobiRestAPI._get_account_id`: first entry whose type is
`"spot"`. -/
def findSpot : List HuobiAccount → Option Int
  | [] => none
  | a :: rest => if a.typ = "spot" then some a.id else findSpot rest

/-- `HuobiRestAPI._get_account_id` as one step: given the cached
`self._account_id` and the account-listing outcome, returns
(result, new cache, whether an account-listing request was issued).
The cache test is Python truthiness (`if self._account_id:`). -/
def getAccountId (cache : Option Int) (listing : Except String (List HuobiAccount)) :
    Option Int × Option Int × Bool :=
  if pyTruthyOptInt cache then (cache, cache, false)
  else
    match listing with
    | .error _ => (none, cache, true)
    | .ok accts =>
      match findSpot accts with
      | some i => (some i, some i, true)
      | none => (none, cache, true)

/-- Outcome of `HuobiRestAPI.get_account_balance` before transport: the path
it builds and whether it issues the HTTP request. -/
structure HuobiBalanceCall where
  uri : String
  requestIssued : Bool
  deriving DecidableEq, Repr

/-- `HuobiRestAPI.get_account_balance`: formats whatever `_get_account_id`
returned (including `None`) into the path and requests it unconditionally. -/
def huobiGetAccountBalance (cache : Option Int)
    (listing : Except String (List HuobiAccount)) : HuobiBalanceCall :=
  let r := getAccountId cache listing
  ⟨"/v1/account/accounts/" ++ pyFormatOptInt r.1 ++ "/balance", true⟩

/-- The body dict of `HuobiRestAPI.create_order`; `price` is popped for the
market order types. -/
def huobiCreateOrderBody (account_id : Option Int) (symbol : String)
    (price quantity : PVal) (order_type : String) : List (String × PVal) :=
  let info :=
    [("account-id", match account_id with | none => PVal.pyNone | some n => PVal.int n),
     ("price", price), ("amount", quantity), ("source", PVal.str "api"),
     ("symbol", PVal.str symbol), ("type", PVal.str order_type)]
  if order_type = "buy-market" ∨ order_type = "sell-market" then popKey info "price"
  else info

/-- Outcome of `HuobiRestAPI.create_order` before transport. -/
structure HuobiOrderCall where
  body : List (String × PVal)
  requestIssued : Bool
  deriving DecidableEq, Repr

/-- `HuobiRestAPI.create_order`: resolves the account id, embeds whatever
came back (including `None`) in the body, and requests unconditionally. -/
def huobiCreateOrder (cache : Option Int) (listing : Except String (List HuobiAccount))
    (symbol : String) (price quantity : PVal) (order_type : String) : HuobiOrderCall :=
  let r := getAccountId cache listing
  ⟨huobiCreateOrderBody r.1 symbol price quantity order_type, true⟩

/-! ## Venue C: `OKExRestAPI` (`quant/platform/okex.py`) -/

/-- Modelled from the spec: the module `quant/order.py` defining the trade
constants imported by `okex.py` is not under `src/`; the spec and the
adapter docstrings give the direction names `BUY`/`SELL` and the order kinds
`LIMIT`/`MARKET`. -/
def ORDER_ACTION_BUY : String := "BUY"

/-- Modelled from the spec: see `ORDER_ACTION_BUY`. -/
def ORDER_ACTION_SELL : String := "SELL"

/-- Modelled from the spec: see `ORDER_ACTION_BUY`. -/
def ORDER_TYPE_LIMIT : String := "LIMIT"

/-- Modelled from the spec: see `ORDER_ACTION_BUY`. -/
def ORDER_TYPE_MARKET : String := "MARKET"

/-- The request body built by `OKExRestAPI.create_order`, or `none` on the
invalid-`order_type` branch (which logs and returns without requesting).
Python dict-literal construction followed by assignments of fresh keys is
rendered as one ordered list, preserving insertion order. -/
def okexCreateOrderInfo (action symbol : String) (price quantity : PVal)
    (order_type : String) (client_oid : Option String) :
    Option (List (String × PVal)) :=
  let info :=
    [("side", PVal.str (if action = ORDER_ACTION_BUY then "buy" else "sell")),
     ("instrument_id", PVal.str symbol),
     ("margin_trading", PVal.int 1)]
  let withType :=
    if order_type = ORDER_TYPE_LIMIT then
      some (info ++ [("type", PVal.str "limit"), ("price", price), ("size", quantity)])
    else if order_type = ORDER_TYPE_MARKET then
      some (info ++ [("type", PVal.str "market")] ++
        (if action = ORDER_ACTION_BUY then [("notional", quantity)]
         else [("size", quantity)]))
    else none
  match withType with
  | none => none
  | some i =>
    some (if pyTruthyOptStr client_oid then i ++ [("client_oid", PVal.str (client_oid.getD ""))]
          else i)

/-- Whether `OKExRestAPI.create_order` reaches its `self.request(...)` call:
exactly when the body was built (the invalid-`order_type` branch returns
first). -/
def okexCreateOrderFetches (action symbol : String) (price quantity : PVal)
    (order_type : String) (client_oid : Option String) : Bool :=
  (okexCreateOrderInfo action symbol price quantity order_type client_oid).isSome

/-- Shape of a Python return value that is either a `(success, error)` pair
or a bare `None` (a single value, not a pair). -/
inductive PyRet (α : Type) where
  | pair (success error : Option α)
  | bareNone
  deriving DecidableEq

/-- The value returned by `OKExRestAPI.create_order`: the `(success, error)`
pair from the transport on the valid branches, and the bare `return None`
on the invalid-`order_type` branch. -/
def okexCreateOrderRet (action symbol : String) (price quantity : PVal)
    (order_type : String) (client_oid : Option String)
    (transport : List (String × PVal) → Option String × Option String) :
    PyRet String :=
  match okexCreateOrderInfo action symbol price quantity order_type client_oid with
  | none => PyRet.bareNone
  | some i => PyRet.pair (transport i).1 (transport i).2

/-- Params of `OKExRestAPI.get_open_orders(symbol, limit)`; the code performs
no bound check on `limit` (documented maximum 100). -/
def okexGetOpenOrdersParams (symbol : String) (limit : Int) : List (String × PVal) :=
  [("instrument_id", PVal.str symbol), ("limit", PVal.int limit)]

/-! ## Digest rendering (all three venues) -/

/-- Python `bytes.hex()` / `hexdigest()`: lowercase hex of a byte string. -/
def hexdigest (bs : List Nat) : String :=
  String.join (bs.map fun b => String.mk [hexDigitLower (b / 16 % 16), hexDigitLower (b % 16)])

/-- The standard base64 alphabet. -/
def b64Alphabet : List Char :=
  "ABCDEFGHIJKLMNOPQRSTUVWXYZabcdefghijklmnopqrstuvwxyz0123456789+/".toList

/-- Character of the standard base64 alphabet at a 6-bit index. -/
def b64Char (n : Nat) : Char := b64Alphabet.getD n 'A'

/-- Python `base64.b64encode(...).decode()`: standard base64 with padding. -/
def base64Encode : List Nat → String
  | [] => ""
  | [a] => String.mk [b64Char (a / 4), b64Char (a % 4 * 16), '=', '=']
  | [a, b] => String.mk [b64Char (a / 4), b64Char (a % 4 * 16 + b / 16), b64Char (b % 16 * 4), '=']
  | a :: b :: c :: rest =>
    String.mk [b64Char (a / 4), b64Char (a % 4 * 16 + b / 16),
               b64Char (b % 16 * 4 + c / 64), b64Char (c % 64)] ++ base64Encode rest

/-- Hash algorithms that can be handed to the Python function `hmac.new`. -/
inductive HashAlgo
  | sha256
  | sha1
  | md5
  deriving DecidableEq

/-- The signer of a venue, described by the hash it keys HMAC with and how the
resulting digest bytes are rendered into text. -/
structure SignerSpec where
  algo : HashAlgo
  render : List Nat → String

/-- Binance: `hmac.new(secret, query, hashlib.sha256).hexdigest()`. -/
def binanceSigner : SignerSpec := ⟨HashAlgo.sha256, hexdigest⟩

/-- Huobi: `hmac.new(secret, payload, digestmod=hashlib.sha256).digest()`
then `base64.b64encode(...).decode()`. -/
def huobiSigner : SignerSpec := ⟨HashAlgo.sha256, base64Encode⟩

/-- OKEx: `hmac.new(secret, message, digestmod="sha256").digest()` then
`base64.b64encode(d).decode()`. -/
def okexSigner : SignerSpec := ⟨HashAlgo.sha256, base64Encode⟩

/-- A concrete stand-in keyed-digest function, used only to instantiate
witnesses of theorems that are parametric in the HMAC function. -/
def mockHmac (key msg : String) : String := key ++ ":" ++ msg

/-! ## Helper lemmas -/

theorem dictGet_setItem_self (d : Params) (k v : String) :
    dictGet (setItem d k v) k = some v := by
  induction d with
  | nil => simp [setItem, dictGet]
  | cons p rest ih =>
    by_cases h : p.1 = k
    · simp [setItem, dictGet, h]
    · simp [setItem, dictGet, h, ih]

theorem dictGet_setItem_ne (d : Params) (k v k' : String) (h : k' ≠ k) :
    dictGet (setItem d k v) k' = dictGet d k' := by
  induction d with
  | nil => simp [setItem, dictGet, Ne.symm h]
  | cons p rest ih =>
    by_cases hp : p.1 = k
    · subst hp
      simp [setItem, dictGet, Ne.symm h]
    · simp only [setItem, if_neg hp]
      by_cases hp' : p.1 = k'
      · simp [dictGet, hp']
      · simp [dictGet, hp', ih]

theorem setItem_append_of_dictGet_none (d : Params) (k v : String)
    (h : dictGet d k = none) : setItem d k v = d ++ [(k, v)] := by
  induction d with
  | nil => simp [setItem]
  | cons p rest ih =>
    by_cases hp : p.1 = k
    · simp [dictGet, hp] at h
    · simp only [dictGet, if_neg hp] at h
      simp [setItem, hp, ih h]

theorem string_length_pos_of_ne_empty {a : String} (h : a ≠ "") : 0 < a.length := by
  cases a with
  | mk l =>
    cases l with
    | nil => exact absurd rfl h
    | cons c cs => simp [String.length]

theorem string_ne_empty_of_length_pos {a : String} (h : 0 < a.length) : a ≠ "" := by
  intro he
  rw [he] at h
  simp [String.length] at h

theorem append_ne_empty_left {a : String} (b : String) (h : a ≠ "") : a ++ b ≠ "" := by
  apply string_ne_empty_of_length_pos
  have := string_length_pos_of_ne_empty h
  rw [String.length_append]
  omega

theorem joinQuery_ne_empty {d : Params} (h : d ≠ []) : joinQuery d ≠ "" := by
  cases d with
  | nil => exact absurd rfl h
  | cons p rest =>
    apply string_ne_empty_of_length_pos
    have heq : ("=" : String).length = 1 := rfl
    cases rest with
    | nil =>
      show 0 < (p.1 ++ "=" ++ p.2).length
      rw [String.length_append, String.length_append, heq]
      omega
    | cons q rest' =>
      show 0 < (p.1 ++ "=" ++ p.2 ++ "&" ++ joinQuery (q :: rest')).length
      rw [String.length_append, String.length_append, String.length_append,
        String.length_append, heq]
      omega

/-! ## Claim theorems -/

/-- C2: for Binance with `auth=true`, when the merged query+body dict is
non-empty the built URL ends in a trailing `signature` query parameter whose
value is the keyed HMAC-SHA256 hex digest of the `key=value&...`
insertion-order join of all the other parameters; when the merged dict is
empty, no signature (indeed no query string at all) is added. -/
theorem binance_auth_query_signature (hm : String → String → String)
    (cred : BinanceCred) (uri : String) (params body : Params) :
    binanceRequestUrl hm cred uri params body true =
      (if binanceMerged params body = [] then cred.host ++ uri
       else cred.host ++ uri ++ "?" ++ joinQuery (binanceMerged params body)
         ++ "&signature=" ++ hm cred.secret_key (joinQuery (binanceMerged params body))) := by
  by_cases h : binanceMerged params body = []
  · simp [binanceRequestUrl, binanceQuery, h]
  · have hq : joinQuery (binanceMerged params body) ≠ "" := joinQuery_ne_empty h
    have hs : joinQuery (binanceMerged params body) ++ ("&signature="
        ++ hm cred.secret_key (joinQuery (binanceMerged params body))) ≠ "" :=
      append_ne_empty_left _ hq
    simp [binanceRequestUrl, binanceQuery, h, hq, hs, String.append_assoc]

/-- C4 counterexample: the claim says venue C (OKEx) renders its digest as
lowercase hexadecimal, but the code base64-encodes it: on the one-byte
digest `[0]` the OKEx rendering is `AA==` while lowercase hex is `00`. -/
theorem okex_digest_rendered_base64_not_hex :
    okexSigner.render [0] = "AA==" ∧ hexdigest [0] = "00" ∧
      okexSigner.render [0] ≠ hexdigest [0] := by
  refine ⟨rfl, rfl, ?_⟩
  decide

/-- C4 (amended): all three venues key HMAC with SHA-256; venue A (Binance)
renders the digest as lowercase hexadecimal, while venues B (Huobi) and
C (OKEx) render it as standard base64 text. -/
theorem venue_digest_rendering :
    binanceSigner.algo = HashAlgo.sha256 ∧ huobiSigner.algo = HashAlgo.sha256 ∧
    okexSigner.algo = HashAlgo.sha256 ∧
    binanceSigner.render = hexdigest ∧
    huobiSigner.render = base64Encode ∧ okexSigner.render = base64Encode ∧
    binanceSigner.render [0, 255] = "00ff" ∧
    huobiSigner.render [0, 255] = "AP8=" ∧ okexSigner.render [0, 255] = "AP8=" :=
  ⟨rfl, rfl, rfl, rfl, rfl, rfl, by decide, by decide, by decide⟩

/-- C8 counterexample: the claim says an over-maximum depth/limit is rejected
or clamped before transmission, but both Binance `get_orderbook` and OKEx
`get_open_orders` place `limit = 5000` (far above the documented
maxima) unmodified into the request parameters. -/
theorem depth_limit_sent_unmodified :
    lookupP (binanceGetOrderbookParams "BTCUSDT" 5000) "limit" = some (PVal.int 5000) ∧
    lookupP (okexGetOpenOrdersParams "BTC-USDT" 5000) "limit" = some (PVal.int 5000) := by
  decide

/-- C8 (amended): no venue rejects or clamps the depth/limit argument; even a
value above the documented maximum is placed unmodified into the request
parameters and sent. -/
theorem depth_limit_passed_through (symbol : String) (limit : Int)
    (h : 100 < limit) :
    lookupP (binanceGetOrderbookParams symbol limit) "limit" = some (PVal.int limit) ∧
    lookupP (okexGetOpenOrdersParams symbol limit) "limit" = some (PVal.int limit) := by
  refine ⟨?_, ?_⟩ <;> simp [binanceGetOrderbookParams, okexGetOpenOrdersParams, lookupP]

/-- C8 witness: `depth_limit_passed_through` applied at `limit = 5000`. -/
theorem depth_limit_passed_through_witness :
    (100 : Int) < 5000 ∧
    (lookupP (binanceGetOrderbookParams "ETHUSDT" 5000) "limit" = some (PVal.int 5000) ∧
     lookupP (okexGetOpenOrdersParams "ETHUSDT" 5000) "limit" = some (PVal.int 5000)) :=
  ⟨by decide, depth_limit_passed_through "ETHUSDT" 5000 (by decide)⟩

/-- C9: OKEx `create_order` with an `order_type` that is neither limit nor
market builds no request body and never reaches the transport call, and no
default order kind is substituted. -/
theorem okex_invalid_order_type_no_fetch (action symbol : String)
    (price quantity : PVal) (order_type : String) (client_oid : Option String)
    (h1 : order_type ≠ ORDER_TYPE_LIMIT) (h2 : order_type ≠ ORDER_TYPE_MARKET) :
    okexCreateOrderInfo action symbol price quantity order_type client_oid = none ∧
    okexCreateOrderFetches action symbol price quantity order_type client_oid = false := by
  have hinfo : okexCreateOrderInfo action symbol price quantity order_type client_oid = none := by
    simp [okexCreateOrderInfo, h1, h2]
  exact ⟨hinfo, by simp [okexCreateOrderFetches, hinfo]⟩

/-- C9 witness: `okex_invalid_order_type_no_fetch` at the concrete invalid
order type `stop`. -/
theorem okex_invalid_order_type_no_fetch_witness :
    ("stop" ≠ ORDER_TYPE_LIMIT ∧ "stop" ≠ ORDER_TYPE_MARKET) ∧
    (okexCreateOrderInfo "BUY" "BTC-USDT" (PVal.int 1) (PVal.str "0.5") "stop" none = none ∧
     okexCreateOrderFetches "BUY" "BTC-USDT" (PVal.int 1) (PVal.str "0.5") "stop" none = false) :=
  ⟨⟨by decide, by decide⟩,
   okex_invalid_order_type_no_fetch "BUY" "BTC-USDT" (PVal.int 1) (PVal.str "0.5")
     "stop" none (by decide) (by decide)⟩

/-- C1 (code evaluated at the failing input): on the invalid-`order_type`
path OKEx `create_order` returns a bare `None`, which is not a
`(success, error)` pair at all — so the claimed exactly-one-populated pair
shape fails there; the adapter docstring itself documents a pair return. -/
theorem okex_create_order_invalid_type_bare_none :
    ∀ transport, okexCreateOrderRet "BUY" "BTC-USDT" (PVal.int 1) (PVal.str "0.5")
        "stop" none transport = PyRet.bareNone ∧
      ∀ s e : Option String, (PyRet.bareNone : PyRet String) ≠ PyRet.pair s e := by
  intro transport
  refine ⟨rfl, ?_⟩
  intro s e hcon
  cases hcon

/-- C6: an OKEx market `create_order` omits `price` from the body entirely,
maps the logical quantity onto the wire field `notional` for a BUY (with no
`size` field) and onto `size` otherwise — in particular for a SELL — (with
no `notional` field). -/
theorem okex_market_order_wire_fields (action symbol : String)
    (price quantity : PVal) (client_oid : Option String) :
    (okexCreateOrderInfo action symbol price quantity ORDER_TYPE_MARKET client_oid).isSome = true ∧
    lookupP ((okexCreateOrderInfo action symbol price quantity ORDER_TYPE_MARKET client_oid).getD [])
      "price" = none ∧
    lookupP ((okexCreateOrderInfo action symbol price quantity ORDER_TYPE_MARKET client_oid).getD [])
      (if action = ORDER_ACTION_BUY then "notional" else "size") = some quantity ∧
    lookupP ((okexCreateOrderInfo action symbol price quantity ORDER_TYPE_MARKET client_oid).getD [])
      (if action = ORDER_ACTION_BUY then "size" else "notional") = none := by
  have hmt : (ORDER_TYPE_MARKET = ORDER_TYPE_LIMIT) = False := by
    simp [ORDER_TYPE_MARKET, ORDER_TYPE_LIMIT]
  by_cases h : action = ORDER_ACTION_BUY <;>
    rcases client_oid with _ | s
  · simp [okexCreateOrderInfo, hmt, h, pyTruthyOptStr, lookupP]
  · by_cases hs : s = "" <;>
      simp [okexCreateOrderInfo, hmt, h, hs, pyTruthyOptStr, lookupP]
  · simp [okexCreateOrderInfo, hmt, h, pyTruthyOptStr, lookupP]
  · by_cases hs : s = "" <;>
      simp [okexCreateOrderInfo, hmt, h, hs, pyTruthyOptStr, lookupP]

/-- C5 (code evaluated at the failing input): with an unresolved account
identifier (no `spot` entry in the listing, or a listing error), Huobi
`get_account_balance` still builds the placeholder path
`/v1/account/accounts/None/balance` and issues the request, and
`create_order` still sends a body whose `account-id` is `None` — instead of
surfacing an "account not resolved" error without a request. -/
theorem huobi_unresolved_account_requests_still_sent :
    getAccountId none (Except.ok [⟨"point", 123⟩]) = (none, none, true) ∧
    huobiGetAccountBalance none (Except.ok [⟨"point", 123⟩]) =
      ⟨"/v1/account/accounts/None/balance", true⟩ ∧
    huobiGetAccountBalance none (Except.error "listing failed") =
      ⟨"/v1/account/accounts/None/balance", true⟩ ∧
    lookupP (huobiCreateOrder none (Except.ok [⟨"point", 123⟩]) "btcusdt"
        (PVal.str "1.0") (PVal.str "2") "buy-limit").body "account-id" = some PVal.pyNone ∧
    (huobiCreateOrder none (Except.ok [⟨"point", 123⟩]) "btcusdt"
        (PVal.str "1.0") (PVal.str "2") "buy-limit").requestIssued = true := by
  refine ⟨rfl, ?_, ?_, rfl, rfl⟩ <;> decide

/-- C7 counterexample: the cache test is Python truthiness, so an account
identifier of `0` set by a successful resolution does not stick — a
subsequent `_get_account_id` call issues another account-listing request and
can overwrite the cached value (here from `0` to `5`). -/
theorem huobi_account_id_zero_refetched :
    (getAccountId none (Except.ok [⟨"spot", 0⟩])).2.1 = some 0 ∧
    getAccountId (some 0) (Except.ok [⟨"spot", 5⟩]) = (some 5, some 5, true) := by
  refine ⟨?_, ?_⟩ <;> decide

/-- C7 (amended): once the cached account identifier holds a nonzero value,
any subsequent `_get_account_id` call returns it unchanged without issuing
another account-listing request; an identifier equal to `0` is falsy in
Python, so the cache check misses it and a later call re-resolves and may
overwrite the cache. -/
theorem huobi_account_id_cached_nonzero (n : Int) (hn : n ≠ 0)
    (listing : Except String (List HuobiAccount)) :
    getAccountId (some n) listing = (some n, some n, false) := by
  have ht : pyTruthyOptInt (some n) = true := by
    simp [pyTruthyOptInt, hn]
  simp [getAccountId, ht]

/-- C7 witness: `huobi_account_id_cached_nonzero` at the cached value `5`. -/
theorem huobi_account_id_cached_nonzero_witness :
    (5 : Int) ≠ 0 ∧
    getAccountId (some 5) (Except.ok [⟨"spot", 7⟩]) = (some 5, some 5, false) :=
  ⟨by decide, huobi_account_id_cached_nonzero 5 (by decide) (Except.ok [⟨"spot", 7⟩])⟩

/-- C3: Huobi signs the newline-joined tuple (method, lower-cased host name,
request path, canonical query) where the canonical query sorts the keys and
percent-encodes each value; the signature is computed over the parameter set
*before* the `Signature` parameter is inserted (it never signs itself), and
is then appended to the parameter set that is sent. -/
theorem huobi_signature_not_self_signed (hm : String → String → String)
    (cred : HuobiCred) (method uri timestamp : String) (params0 : Params)
    (h : dictGet params0 "Signature" = none) :
    dictGet (dictUpdate params0 (huobiAuthParams cred.access_key timestamp)) "Signature" = none ∧
    huobiRequestParams hm cred method uri timestamp params0 =
      dictUpdate params0 (huobiAuthParams cred.access_key timestamp)
        ++ [("Signature",
             generate_signature hm cred.secret_key method ((hostnameOf cred.host).toLower) uri
               (dictUpdate params0 (huobiAuthParams cred.access_key timestamp)))] ∧
    generate_signature hm cred.secret_key method ((hostnameOf cred.host).toLower) uri
        (dictUpdate params0 (huobiAuthParams cred.access_key timestamp)) =
      hm cred.secret_key
        (String.intercalate "\n" [method, (hostnameOf cred.host).toLower, uri,
          huobiCanonicalQuery (dictUpdate params0 (huobiAuthParams cred.access_key timestamp))]) := by
  have h1 : dictGet (dictUpdate params0 (huobiAuthParams cred.access_key timestamp))
      "Signature" = none := by
    show dictGet (setItem (setItem (setItem (setItem params0 "AccessKeyId" cred.access_key)
      "SignatureMethod" "HmacSHA256") "SignatureVersion" "2") "Timestamp" timestamp)
      "Signature" = none
    rw [dictGet_setItem_ne _ "Timestamp" _ "Signature" (by decide),
        dictGet_setItem_ne _ "SignatureVersion" _ "Signature" (by decide),
        dictGet_setItem_ne _ "SignatureMethod" _ "Signature" (by decide),
        dictGet_setItem_ne _ "AccessKeyId" _ "Signature" (by decide)]
    exact h
  exact ⟨h1, setItem_append_of_dictGet_none _ _ _ h1, rfl⟩

/-- C3 witness: `huobi_signature_not_self_signed` at concrete credentials,
a concrete params dict, and the stand-in digest function `mockHmac`. -/
theorem huobi_signature_not_self_signed_witness :
    dictGet [("symbol", "btcusdt")] "Signature" = none ∧
    (dictGet (dictUpdate [("symbol", "btcusdt")] (huobiAuthParams "AK" "TS")) "Signature" = none ∧
     huobiRequestParams mockHmac ⟨"https://api.huobipro.com", "AK", "SK"⟩ "GET" "/v1/u" "TS"
         [("symbol", "btcusdt")] =
       dictUpdate [("symbol", "btcusdt")] (huobiAuthParams "AK" "TS")
         ++ [("Signature",
              generate_signature mockHmac "SK" "GET" ((hostnameOf "https://api.huobipro.com").toLower)
                "/v1/u" (dictUpdate [("symbol", "btcusdt")] (huobiAuthParams "AK" "TS")))] ∧
     generate_signature mockHmac "SK" "GET" ((hostnameOf "https://api.huobipro.com").toLower)
         "/v1/u" (dictUpdate [("symbol", "btcusdt")] (huobiAuthParams "AK" "TS")) =
       mockHmac "SK"
         (String.intercalate "\n" ["GET", (hostnameOf "https://api.huobipro.com").toLower, "/v1/u",
           huobiCanonicalQuery (dictUpdate [("symbol", "btcusdt")] (huobiAuthParams "AK" "TS"))])) :=
  ⟨by decide,
   huobi_signature_not_self_signed mockHmac ⟨"https://api.huobipro.com", "AK", "SK"⟩
     "GET" "/v1/u" "TS" [("symbol", "btcusdt")] (by decide)⟩

/-- C10: Huobi `request` mutates the caller-supplied non-empty params dict
in place — after the call the dict of the caller additionally carries the
`AccessKeyId`, `SignatureMethod`, `SignatureVersion`, `Timestamp` and
`Signature` keys. -/
theorem huobi_request_mutates_caller_params (hm : String → String → String)
    (cred : HuobiCred) (method uri timestamp : String) (params0 : Params)
    (h : params0 ≠ []) :
    (dictGet (huobiCallerParamsAfter hm cred method uri timestamp params0)
      "AccessKeyId").isSome = true ∧
    (dictGet (huobiCallerParamsAfter hm cred method uri timestamp params0)
      "SignatureMethod").isSome = true ∧
    (dictGet (huobiCallerParamsAfter hm cred method uri timestamp params0)
      "SignatureVersion").isSome = true ∧
    (dictGet (huobiCallerParamsAfter hm cred method uri timestamp params0)
      "Timestamp").isSome = true ∧
    (dictGet (huobiCallerParamsAfter hm cred method uri timestamp params0)
      "Signature").isSome = true := by
  have hafter : huobiCallerParamsAfter hm cred method uri timestamp params0 =
      huobiRequestParams hm cred method uri timestamp params0 := by
    simp [huobiCallerParamsAfter, h]
  rw [hafter]
  simp only [huobiRequestParams, huobiAuthParams, dictUpdate, List.foldl]
  refine ⟨?_, ?_, ?_, ?_, ?_⟩ <;>
    simp [dictGet_setItem_self, dictGet_setItem_ne]

/-- C10 witness: `huobi_request_mutates_caller_params` at a concrete
non-empty params dict. -/
theorem huobi_request_mutates_caller_params_witness :
    ([("symbol", "btcusdt")] : Params) ≠ [] ∧
    ((dictGet (huobiCallerParamsAfter mockHmac ⟨"https://api.huobipro.com", "AK", "SK"⟩
       "GET" "/v1/u" "TS" [("symbol", "btcusdt")]) "AccessKeyId").isSome = true ∧
     (dictGet (huobiCallerParamsAfter mockHmac ⟨"https://api.huobipro.com", "AK", "SK"⟩
       "GET" "/v1/u" "TS" [("symbol", "btcusdt")]) "SignatureMethod").isSome = true ∧
     (dictGet (huobiCallerParamsAfter mockHmac ⟨"https://api.huobipro.com", "AK", "SK"⟩
       "GET" "/v1/u" "TS" [("symbol", "btcusdt")]) "SignatureVersion").isSome = true ∧
     (dictGet (huobiCallerParamsAfter mockHmac ⟨"https://api.huobipro.com", "AK", "SK"⟩
       "GET" "/v1/u" "TS" [("symbol", "btcusdt")]) "Timestamp").isSome = true ∧
     (dictGet (huobiCallerParamsAfter mockHmac ⟨"https://api.huobipro.com", "AK", "SK"⟩
       "GET" "/v1/u" "TS" [("symbol", "btcusdt")]) "Signature").isSome = true) :=
  ⟨by decide,
   huobi_request_mutates_caller_params mockHmac ⟨"https://api.huobipro.com", "AK", "SK"⟩
     "GET" "/v1/u" "TS" [("symbol", "btcusdt")] (by decide)⟩

end Spec2Proof
